import Mathlib

/-!
Shallow embedding of the moodle-admision repository (Python) in Lean 4.

Source files embedded:
* `moodle_admision_export.py` — areas, question-range bucketing, per-attempt
  row construction (`build_row_from_review`), summary construction and the
  nivelación (remedial) flags (`write_excel_all_in_one`), and the per-pair
  error handling of `_process_user_quiz`.
* `actas_presentacion.py` / `app_streamlit_admision.py` — the two DNI
  normalizers `_norm_dni` and `_norm_dni_value`.

Modelling conventions:
* Python floats are embedded as exact rationals (`ℚ`).
* Python strings are embedded as `String` (or `List Char` for the
  character-level DNI normalizers).
* Python dicts with `.get(k, default)` are embedded as total functions
  returning the default outside their domain, or as association lists when
  iteration order matters.
* Values that may be absent (`None`) are embedded as `Option`.
* Fields of the produced rows that no claim mentions (timestamps, quiz ids)
  are elided from the row structures.
-/

namespace MoodleAdmision

/-- Model of `r(a, b) = list(range(a, b + 1))` from `moodle_admision_export.py`. -/
def r (a b : Nat) : List Nat := List.range' a (b + 1 - a)

/-- Model of `AREA_DEFS[area]["ranges"]`, as an association list preserving the dict
insertion order; an unknown area letter gives `[]` (the dict-`get` default
`{}`). The labels `label`/`cta_label` are not used by any claim and elided. -/
def areaRanges : String → List (String × List Nat)
  | "A" =>
    [("COMUNICACIÓN", r 1 21 ++ r 97 100),
     ("MATEMÁTICA", r 22 71),
     ("HABILIDADES COMUNICATIVAS", r 72 81),
     ("CTA/CCSS", r 82 96)]
  | "B" =>
    [("COMUNICACIÓN", r 1 21 ++ r 97 100),
     ("MATEMÁTICA", r 22 51),
     ("HABILIDADES COMUNICATIVAS", r 52 61),
     ("CTA/CCSS", r 62 96)]
  | "C" =>
    [("COMUNICACIÓN", r 1 31 ++ r 97 100),
     ("MATEMÁTICA", r 32 61),
     ("HABILIDADES COMUNICATIVAS", r 62 71),
     ("CTA/CCSS", r 72 96)]
  | _ => []

/-- Model of `NIVEL_THRESHOLD = 0.30`. -/
def NIVEL_THRESHOLD : ℚ := 30 / 100

/-- Model of `CRITERIA_BY_AREA`, with the two dict-`get` defaults collapsed:
`criteria_by_area.get(area, {}).get(subject, 0)`. -/
def CRITERIA_BY_AREA (area subject : String) : ℚ :=
  match area, subject with
  | "A", "COMUNICACIÓN" => 25
  | "A", "HABILIDADES COMUNICATIVAS" => 10
  | "A", "MATEMÁTICA" => 50
  | "A", "CTA/CCSS" => 15
  | "B", "COMUNICACIÓN" => 25
  | "B", "HABILIDADES COMUNICATIVAS" => 10
  | "B", "MATEMÁTICA" => 30
  | "B", "CTA/CCSS" => 35
  | "C", "COMUNICACIÓN" => 35
  | "C", "HABILIDADES COMUNICATIVAS" => 10
  | "C", "MATEMÁTICA" => 30
  | "C", "CTA/CCSS" => 25
  | _, _ => 0

/-- Model of `to_02(value)`: `None` stays `None`; a parsed numeric value becomes `0.2`
when positive, `0.0` when within `1e-9` of zero, and `0.0` otherwise. The
string parsing (comma-to-dot, `float(...)`) is modelled by taking the input
as an already-parsed `Option ℚ`, `none` covering both `None` and an
unparseable value. -/
def to_02 : Option ℚ → Option ℚ
  | none => none
  | some x =>
    if x > 0 then some (2 / 10)
    else if |x| < 1 / 1000000000 then some 0
    else some 0

/-- Model of `count_correct(vals)`: entries non-`None` with `abs(v - 0.2) < 1e-9`. -/
def count_correct (vals : List (Option ℚ)) : Nat :=
  vals.countP fun v =>
    match v with
    | none => false
    | some x => decide (|x - 2 / 10| < 1 / 1000000000)

/-- Model of `count_responded(vals)`: entries non-`None` equal to `0.2` or `0.0`
(within `1e-9`). -/
def count_responded (vals : List (Option ℚ)) : Nat :=
  vals.countP fun v =>
    match v with
    | none => false
    | some x => decide (|x - 2 / 10| < 1 / 1000000000 ∨ |x| < 1 / 1000000000)

/-- Model of `pct(numer, denom)`: `numer / denom` when `denom` is non-zero, else `0.0`. -/
def pct (numer denom : Nat) : ℚ :=
  if denom = 0 then 0 else (numer : ℚ) / (denom : ℚ)

/-- One entry of `review["questions"]`. `slot` is the parsed slot number:
`none` models a missing slot and the case where `int(slot)` raises
(non-integer slot). `mark`, `fraction` and `maxmark` are the parsed numeric
fields, `none` when absent or unparseable. -/
structure ReviewQuestion where
  slot : Option Int
  mark : Option ℚ
  fraction : Option ℚ
  maxmark : Option ℚ

/-- The effective mark of a question: `mark` when present, otherwise
`fraction * maxmark` when both are numeric, otherwise `None`. -/
def effMark (q : ReviewQuestion) : Option ℚ :=
  match q.mark with
  | some m => some m
  | none =>
    match q.fraction, q.maxmark with
    | some f, some mx => some (f * mx)
    | _, _ => none

/-- One loop step of the `q_vals` construction: questions whose slot is
missing, unparseable, or outside `1..100` are skipped; otherwise the value
at that slot is overwritten with `to_02` of the effective mark. The slot
vector is represented as a total function from the 1-based slot number. -/
def updSlot (f : Nat → Option ℚ) (q : ReviewQuestion) : Nat → Option ℚ :=
  match q.slot with
  | none => f
  | some s =>
    if 1 ≤ s ∧ s ≤ 100 then
      fun i => if (i : Int) = s then to_02 (effMark q) else f i
    else f

/-- The slot vector `q_vals` after the question loop of `build_row_from_review`
(`max_questions = 100`, the default and only value used). -/
def buildQVals (qs : List ReviewQuestion) : Nat → Option ℚ :=
  qs.foldl updSlot fun _ => none

/-- The Moodle user record, custom fields flattened (`DNI_CE`,
`PROGRAMA_ACADEMICO`, `SEDE_FILIAL`, `CODIGO_DE_MATRICULA` with their
`or ""` fallbacks collapsed). -/
structure MoodleUser where
  firstname : String
  lastname : String
  email : String
  dni : String
  codMat : String
  programa : String
  sede : String

/-- The attempt fields used by the claims (`state`; timestamps elided). -/
structure Attempt where
  state : String

/-- The attempt review: `grade` and the question list. -/
structure Review where
  grade : Option ℚ
  questions : List ReviewQuestion

/-- The column key `f"P. {i} /0.2"`. -/
def pKey (i : Nat) : String := "P. " ++ toString i ++ " /0.2"

/-- Model of `vals = [q_vals[i-1] for i in qs if 1 <= i <= max_questions]`, with the
slot vector as a function of the 1-based slot number. -/
def valsOf (q : Nat → Option ℚ) (qs : List Nat) : List (Option ℚ) :=
  (qs.filter fun i => decide (1 ≤ i ∧ i ≤ 100)).map q

/-- Model of `perc[sub]` in `build_row_from_review`, read back through
`perc.get(sub, 0.0)`: `0.0` when the subject is not a key of the area's
ranges. Note the code divides by `len(qs)` (the unfiltered range length). -/
def percOf (area subject : String) (q : Nat → Option ℚ) : ℚ :=
  match (areaRanges area).lookup subject with
  | none => 0
  | some qs => pct (count_correct (valsOf q qs)) qs.length

/-- Model of `pts[sub] = perc[sub] * total_q * 0.2`, read back through
`pts.get(sub, 0.0)`. -/
def ptsOf (area subject : String) (q : Nat → Option ℚ) : ℚ :=
  match (areaRanges area).lookup subject with
  | none => 0
  | some qs => pct (count_correct (valsOf q qs)) qs.length * (qs.length : ℚ) * (2 / 10)

/-- A row of the RESULTADOS sheet. Field-to-column mapping:
`apellidos` = "Apellido(s)", `nombre` = "Nombre", `email` = "Dirección de
correo", `dni` = "Numero de DNI", `codMat` = "Código de Matrícula",
`programa` = "Programa Académico", `sede` = "Sede o Filial", `area` =
"Área", `estado` = "Estado", `grade` = "Calificación/20", `qcols` = the
question columns "P. i /0.2", `pctCom` = "% COMUNICACIÓN", `pctHab` =
"% HABILIDADES COMUNICATIVAS", `pctMat` = "% MATEMÁTICA", `pctCta` =
"% CTA/CCSS", `pCom` = "P. COMUNICACIÓN", `pHab` = "P. HABILIDADES
COMUNICATIVAS", `pMat` = "P. MATEMÁTICA", `pCta` = "P. CTA/CCSS",
`puntaje` = "PUNTAJE", `respondidas` = "PREGUNTAS RESPONDIDAS",
`noRespondidas` = "PREGUNTAS NO RESPONDIDAS", `pctResp` = "%DE PREGUNTAS
RESPONDIDAS", `pctNoResp` = "%DE PREGUNTAS NO RESPONDIDAS". The timestamp
and internal id columns are elided (no claim mentions them). -/
structure ResultsRow where
  apellidos : String
  nombre : String
  email : String
  dni : String
  codMat : String
  programa : String
  sede : String
  area : String
  estado : String
  grade : Option ℚ
  qcols : List (String × Option ℚ)
  pctCom : ℚ
  pctHab : ℚ
  pctMat : ℚ
  pctCta : ℚ
  pCom : ℚ
  pHab : ℚ
  pMat : ℚ
  pCta : ℚ
  puntaje : ℚ
  respondidas : Nat
  noRespondidas : Nat
  pctResp : ℚ
  pctNoResp : ℚ

/-- Model of `build_row_from_review(user, quiz, area_letter, attempt, review, tz)`
with `max_questions = 100`. The quiz/timestamps only feed elided columns. -/
def build_row_from_review (user : MoodleUser) (area_letter : String)
    (attempt : Attempt) (review : Review) : ResultsRow :=
  let q := buildQVals review.questions
  let responded := count_responded ((r 1 100).map fun i => q i)
  { apellidos := user.lastname
    nombre := user.firstname
    email := user.email
    dni := user.dni
    codMat := user.codMat
    programa := user.programa
    sede := user.sede
    area := area_letter
    estado := attempt.state
    grade := review.grade
    qcols := (r 1 100).map fun i => (pKey i, q i)
    pctCom := percOf area_letter "COMUNICACIÓN" q
    pctHab := percOf area_letter "HABILIDADES COMUNICATIVAS" q
    pctMat := percOf area_letter "MATEMÁTICA" q
    pctCta := percOf area_letter "CTA/CCSS" q
    pCom := ptsOf area_letter "COMUNICACIÓN" q
    pHab := ptsOf area_letter "HABILIDADES COMUNICATIVAS" q
    pMat := ptsOf area_letter "MATEMÁTICA" q
    pCta := ptsOf area_letter "CTA/CCSS" q
    puntaje := ptsOf area_letter "COMUNICACIÓN" q
      + ptsOf area_letter "HABILIDADES COMUNICATIVAS" q
      + ptsOf area_letter "MATEMÁTICA" q
      + ptsOf area_letter "CTA/CCSS" q
    respondidas := responded
    noRespondidas := 100 - responded
    pctResp := (responded : ℚ) / 100
    pctNoResp := ((100 - responded : Nat) : ℚ) / 100 }

/-- A row of the RESUMEN sheet. Field-to-column mapping:
`apellidosNombres` = "Apellidos y nombres", `dni` = "DNI", `codMat` =
"Código de Matrícula", `programa` = "Programa Académico", `sede` = "Sede o
Filial", `area` = "Área", `asistencia` = "Asistencia", `com` =
"COMUNICACIÓN", `critCom` = "CRITERIO (COM)", `pctCom` = "% (COM)", `hab` =
"HABILIDADES COMUNICATIVAS", `critHab` = "CRITERIO (HAB)", `pctHab` =
"% (HAB)", `mat` = "MATEMÁTICA", `critMat` = "CRITERIO (MAT)", `pctMat` =
"% (MAT)", `cta` = "CTA/CCSS", `critCta` = "CRITERIO (CTA/CCSS)", `pctCta`
= "% (CTA/CCSS)", `total` = "TOTAL", `pctTotal` = "%_TOTAL",
`respondidas` = "PREGUNTAS RESPONDIDAS", `noRespondidas` = "PREGUNTAS NO
RESPONDIDAS", `pctResp` = "% RESPONDIDAS", `pctNoResp` = "% NO
RESPONDIDAS", `condicion` = "CONDICIÓN", `programaNivel` = "PROGRAMA DE
NIVELACIÓN", `comNivel` = "COMUNICACIÓN.1", `habNivel` = "HABILIDADES
COMUNICATIVAS.1", `matNivel` = "MATEMATICA", `ctaNivel` = "CIENCIA,
TECNOLOGÍA Y AMBIENTE.1", `ccssNivel` = "CIENCIAS SOCIALES". -/
structure ResumenRow where
  apellidosNombres : String
  dni : String
  codMat : String
  programa : String
  sede : String
  area : String
  asistencia : String
  com : ℚ
  critCom : ℚ
  pctCom : ℚ
  hab : ℚ
  critHab : ℚ
  pctHab : ℚ
  mat : ℚ
  critMat : ℚ
  pctMat : ℚ
  cta : ℚ
  critCta : ℚ
  pctCta : ℚ
  total : ℚ
  pctTotal : ℚ
  respondidas : Nat
  noRespondidas : Nat
  pctResp : ℚ
  pctNoResp : ℚ
  condicion : String
  programaNivel : String
  comNivel : String
  habNivel : String
  matNivel : String
  ctaNivel : String
  ccssNivel : String

/-- The body of the RESUMEN loop in `write_excel_all_in_one`: one summary
record built from one (already sorted) RESULTADOS row. `criteria` models
the `criteria_by_area` dict-of-dicts with its `get` defaults collapsed
(`0` for an unknown area or subject); `nivelByArea` models
`(nivel_by_area or {})` with its two `get` levels collapsed into an
optional per-(area, subject) threshold, `none` falling back to
`nivel_threshold_base`. -/
def mkResumenRow (criteria : String → String → ℚ) (nivelBase : ℚ)
    (nivelByArea : String → String → Option ℚ) (row : ResultsRow) : ResumenRow :=
  let area := (row.area.toUpper).trim
  let c_com := criteria area "COMUNICACIÓN"
  let c_hab := criteria area "HABILIDADES COMUNICATIVAS"
  let c_mat := criteria area "MATEMÁTICA"
  let c_cta := criteria area "CTA/CCSS"
  let p_com := c_com * row.pctCom
  let p_hab := c_hab * row.pctHab
  let p_mat := c_mat * row.pctMat
  let p_cta := c_cta * row.pctCta
  let total := p_com + p_hab + p_mat + p_cta
  let grade := row.grade.getD 0
  let condicion := if grade > 0 then "INGRESÓ" else ""
  let thr_com := (nivelByArea area "COMUNICACIÓN").getD nivelBase
  let thr_hab := (nivelByArea area "HABILIDADES COMUNICATIVAS").getD nivelBase
  let thr_mat := (nivelByArea area "MATEMÁTICA").getD nivelBase
  let thr_cta := (nivelByArea area "CTA/CCSS").getD nivelBase
  let com_nivel := if row.pctCom ≤ thr_com then "COMUNICACIÓN" else ""
  let hab_nivel := if row.pctHab ≤ thr_hab then "HABILIDADES COMUNICATIVAS" else ""
  let mat_nivel := if row.pctMat ≤ thr_mat then "MATEMATICA" else ""
  let ctaPair : String × String :=
    if row.pctCta ≤ thr_cta then
      if area = "C" then ("", "CIENCIAS SOCIALES")
      else ("CIENCIA, TECNOLOGÍA Y AMBIENTE", "")
    else ("", "")
  let cta_nivel := ctaPair.1
  let ccss_nivel := ctaPair.2
  let requiere := com_nivel ≠ "" ∨ hab_nivel ≠ "" ∨ mat_nivel ≠ ""
    ∨ cta_nivel ≠ "" ∨ ccss_nivel ≠ ""
  let programa_nivel := if requiere then "SI" else "NO"
  { apellidosNombres := (row.apellidos ++ " " ++ row.nombre).trim
    dni := row.dni
    codMat := row.codMat
    programa := row.programa
    sede := row.sede
    area := area
    asistencia := "ASISTIÓ"
    com := p_com
    critCom := c_com
    pctCom := row.pctCom
    hab := p_hab
    critHab := c_hab
    pctHab := row.pctHab
    mat := p_mat
    critMat := c_mat
    pctMat := row.pctMat
    cta := p_cta
    critCta := c_cta
    pctCta := row.pctCta
    total := total
    pctTotal := total / 100
    respondidas := row.respondidas
    noRespondidas := row.noRespondidas
    pctResp := row.pctResp
    pctNoResp := row.pctNoResp
    condicion := condicion
    programaNivel := programa_nivel
    comNivel := com_nivel
    habNivel := hab_nivel
    matNivel := mat_nivel
    ctaNivel := cta_nivel
    ccssNivel := ccss_nivel }

/-- The lexicographic key order used by the pandas sorts: first key
strictly smaller, or first keys equal and second key at most. -/
def lexLe (k₁ k₂ : String × String) : Prop :=
  k₁.1 < k₂.1 ∨ (k₁.1 = k₂.1 ∧ k₁.2 ≤ k₂.2)

instance (k₁ k₂ : String × String) : Decidable (lexLe k₁ k₂) := by
  unfold lexLe; infer_instance

/-- RESULTADOS sort key: ("Programa Académico", "Numero de DNI"). -/
def resultsKey (row : ResultsRow) : String × String := (row.programa, row.dni)

/-- RESUMEN sort key: ("Programa Académico", "DNI"). -/
def resumenKey (s : ResumenRow) : String × String := (s.programa, s.dni)

/-- Boolean comparison for the stable RESULTADOS sort. -/
def resultsKeyLe (a b : ResultsRow) : Bool := decide (lexLe (resultsKey a) (resultsKey b))

/-- Boolean comparison for the stable RESUMEN sort. -/
def resumenKeyLe (a b : ResumenRow) : Bool := decide (lexLe (resumenKey a) (resumenKey b))

/-- The two sheets of the workbook written by `write_excel_all_in_one`. -/
structure Workbook where
  resultados : List ResultsRow
  resumen : List ResumenRow

/-- Model of `write_excel_all_in_one(out_path, rows, criteria_by_area,
nivel_threshold_base, nivel_by_area)`. The optional parameters are `None`
by default in the source and replaced by `CRITERIA_BY_AREA`,
`NIVEL_THRESHOLD` and `{}` respectively; `pd.sort_values(kind="mergesort")`
is a stable sort and is embedded as `List.mergeSort` (both sort key columns
always exist on the rows built by `build_row_from_review`, so the
column-presence guards always pass). The Excel serialization itself is
elided: the result is the pair of sheets. -/
def write_excel_all_in_one (rows : List ResultsRow)
    (criteriaByAreaArg : Option (String → String → ℚ))
    (nivelThresholdBaseArg : Option ℚ)
    (nivelByAreaArg : Option (String → String → Option ℚ)) :
    Except String Workbook :=
  if rows.isEmpty then .error "No hay filas para exportar."
  else
    let criteria := criteriaByAreaArg.getD CRITERIA_BY_AREA
    let nivelBase := nivelThresholdBaseArg.getD NIVEL_THRESHOLD
    let nivelByArea := nivelByAreaArg.getD fun _ _ => none
    let df := rows.mergeSort resultsKeyLe
    let resumenRows := df.map (mkResumenRow criteria nivelBase nivelByArea)
    let dfRes := resumenRows.mergeSort resumenKeyLe
    .ok ⟨df, dfRes⟩

/-! ### `_process_user_quiz` (catch-and-continue error handling)

`_process_user_quiz` fetches the user's attempts for one quiz and, for each
attempt, fetches its review and builds one row, appending to `out`; the
whole body is wrapped in `try/except` that logs and returns `out` as
accumulated so far. The HTTP layer is abstracted: the attempt fetch is an
`Except` value, and each attempt carries the `Except` result of its
review-fetch-and-build step. -/

/-- The attempt loop: rows accumulate until the first failing attempt, whose
exception aborts the loop (the rows built so far are kept). -/
def buildRowsUntilError {ε ρ : Type} : List (Except ε ρ) → List ρ
  | [] => []
  | .ok row :: rest => row :: buildRowsUntilError rest
  | .error _ :: _ => []

/-- Model of `_process_user_quiz` for one (quiz, user) pair: a failed attempt fetch
gives `[]`; otherwise the attempt loop runs until its first failure. The
result is always a plain list — no exception propagates. -/
def processUserQuiz {ε ρ : Type} (fetch : Except ε (List (Except ε ρ))) : List ρ :=
  match fetch with
  | .error _ => []
  | .ok attempts => buildRowsUntilError attempts

/-- The main loop's accumulation over all (quiz, user) pairs:
`rows.extend(res)` for every finished pair. -/
def processPairs {ε ρ : Type} (pairs : List (Except ε (List (Except ε ρ)))) : List ρ :=
  (pairs.map processUserQuiz).flatten

/-! ### DNI normalizers (`actas_presentacion.py` / `app_streamlit_admision.py`)

Both normalizers start from `"" if pd.isna(v) else str(v).strip()`; they are
embedded at the character-list level, the input being the characters of
`str(v)` (a `pd.isna` input maps to the empty list, on which both return
the empty string). -/

/-- Python's default `str.strip` character class, restricted to the ASCII
whitespace characters that can occur here. -/
def pyIsSpace (c : Char) : Bool :=
  c = ' ' ∨ c = '\t' ∨ c = '\n' ∨ c = '\r' ∨ c = '\x0b' ∨ c = '\x0c'

/-- Model of `s.strip()`: drop leading and trailing whitespace. -/
def pyStrip (l : List Char) : List Char :=
  ((l.dropWhile pyIsSpace).reverse.dropWhile pyIsSpace).reverse

/-- Model of `s.zfill(w)`: left-pad with `'0'` to width `w`, keeping a leading sign
in front of the padding. -/
def zfill (l : List Char) (w : Nat) : List Char :=
  match l with
  | [] => List.replicate w '0'
  | c :: rest =>
    if c = '+' ∨ c = '-' then c :: (List.replicate (w - l.length) '0' ++ rest)
    else List.replicate (w - l.length) '0' ++ l

/-- The digit-extraction prelude shared verbatim by `_norm_dni` and
`_norm_dni_value`: `s = str(v).strip()`, then `s = s[:-2]` when `s` ends
with `".0"`, then `digits = "".join(ch for ch in s if ch.isdigit())`. -/
def preDigits (l : List Char) : List Char :=
  (if ['.', '0'] <:+ pyStrip l then (pyStrip l).dropLast.dropLast
   else pyStrip l).filter Char.isDigit

/-- Model of `_norm_dni(v)` from `actas_presentacion.py`: strip, drop a trailing
`".0"`, keep digits, empty when no digit remains, else `zfill(8)`. -/
def norm_dni (l : List Char) : List Char :=
  if preDigits l = [] then [] else zfill (preDigits l) 8

/-- Model of `_norm_dni_value(v)` from `app_streamlit_admision.py`: same steps, but
`zfill(8)` is only applied when fewer than 8 digits remain. -/
def norm_dni_value (l : List Char) : List Char :=
  if preDigits l = [] then []
  else if (preDigits l).length < 8 then zfill (preDigits l) 8
  else preDigits l

/-! ### Concrete sample data (used by witnesses and counterexamples) -/

/-- A concrete Moodle user. -/
def sampleUser : MoodleUser :=
  { firstname := "ANA", lastname := "QUISPE", email := "ana@example.com",
    dni := "07489547", codMat := "M001", programa := "ENFERMERIA", sede := "ICA" }

/-- A concrete attempt. -/
def sampleAttempt : Attempt := { state := "finished" }

/-- A concrete review: one correct answer in slot 1. -/
def sampleReview : Review :=
  { grade := some 10, questions := [⟨some 1, some (2 / 10), none, none⟩] }

/-- A review question with an out-of-range slot (ignored by the bucketing). -/
def badSlotQuestion : ReviewQuestion := ⟨some 101, some (2 / 10), none, none⟩

/-- A concrete RESULTADOS row (question columns elided; no claim that uses
this row depends on them). -/
def sampleRow : ResultsRow :=
  { apellidos := "QUISPE", nombre := "ANA", email := "ana@example.com",
    dni := "07489547", codMat := "M001", programa := "ENFERMERIA",
    sede := "ICA", area := "A", estado := "finished", grade := some 10,
    qcols := [], pctCom := 1 / 5, pctHab := 1 / 2, pctMat := 1 / 2,
    pctCta := 1 / 2, pCom := 1, pHab := 1, pMat := 5, pCta := 3 / 2,
    puntaje := 17 / 2, respondidas := 100, noRespondidas := 0,
    pctResp := 1, pctNoResp := 0 }

/-- The question range of a subject in an area: the area's `ranges` dict
looked up at the subject, `[]` when the key is missing. -/
def subjectRange (area subject : String) : List Nat :=
  ((areaRanges area).lookup subject).getD []

/-- The workbook `write_excel_all_in_one` produces on `[sampleRow]` with
default parameters. -/
def sampleWb : Workbook :=
  ⟨[sampleRow], [mkResumenRow CRITERIA_BY_AREA NIVEL_THRESHOLD (fun _ _ => none) sampleRow]⟩

/-! ### Theorems -/

/-- C4: For every area A, B and C, the four per-subject question ranges
of `AREA_DEFS` carry exactly the four subjects, are pairwise disjoint,
their union is exactly the slot set {1, …, 100} (stated as: the
concatenation of the ranges is a permutation of the list `1..100`), and
each subject's range length equals the criterion weight used for that area
and subject in `CRITERIA_BY_AREA`. -/
theorem area_ranges_partition_and_weights :
    ∀ area ∈ ["A", "B", "C"],
      ((areaRanges area).map Prod.fst =
        ["COMUNICACIÓN", "MATEMÁTICA", "HABILIDADES COMUNICATIVAS", "CTA/CCSS"]) ∧
      ((areaRanges area).Pairwise fun p₁ p₂ => ∀ n, n ∈ p₁.2 → n ∉ p₂.2) ∧
      ((((areaRanges area).map Prod.snd).flatten).Perm (r 1 100)) ∧
      (∀ p ∈ areaRanges area, (p.2.length : ℚ) = CRITERIA_BY_AREA area p.1) := by
  decide

/-- Witness for C4 at the concrete area `"A"`. -/
theorem area_ranges_partition_and_weights_witness :
    ((areaRanges "A").map Prod.fst =
      ["COMUNICACIÓN", "MATEMÁTICA", "HABILIDADES COMUNICATIVAS", "CTA/CCSS"]) ∧
    ((areaRanges "A").Pairwise fun p₁ p₂ => ∀ n, n ∈ p₁.2 → n ∉ p₂.2) ∧
    ((((areaRanges "A").map Prod.snd).flatten).Perm (r 1 100)) ∧
    (∀ p ∈ areaRanges "A", (p.2.length : ℚ) = CRITERIA_BY_AREA "A" p.1) :=
  area_ranges_partition_and_weights "A" (by decide)

/-- C1: In each RESUMEN record, each subject's nivelación flag column is
non-empty iff that subject's percentage score is at most the threshold
configured for that area and subject (falling back to the base threshold
when no per-area threshold is given; the source default `NIVEL_THRESHOLD`
is 0.30); the CTA/CCSS flag lives in the CIENCIAS SOCIALES column for area
C and in the CIENCIA, TECNOLOGÍA Y AMBIENTE column otherwise, so the two
columns are taken together. PROGRAMA DE NIVELACIÓN is "SI" iff at least
one of the four subject flags is non-empty, and "NO" otherwise. -/
theorem nivelacion_flags (criteria : String → String → ℚ) (nivelBase : ℚ)
    (nivelByArea : String → String → Option ℚ) (row : ResultsRow) :
    let s := mkResumenRow criteria nivelBase nivelByArea row
    let area := (row.area.toUpper).trim
    (s.comNivel ≠ "" ↔ row.pctCom ≤ (nivelByArea area "COMUNICACIÓN").getD nivelBase) ∧
    (s.habNivel ≠ "" ↔
      row.pctHab ≤ (nivelByArea area "HABILIDADES COMUNICATIVAS").getD nivelBase) ∧
    (s.matNivel ≠ "" ↔ row.pctMat ≤ (nivelByArea area "MATEMÁTICA").getD nivelBase) ∧
    ((s.ctaNivel ≠ "" ∨ s.ccssNivel ≠ "") ↔
      row.pctCta ≤ (nivelByArea area "CTA/CCSS").getD nivelBase) ∧
    (s.programaNivel = "SI" ↔
      (s.comNivel ≠ "" ∨ s.habNivel ≠ "" ∨ s.matNivel ≠ "" ∨
        s.ctaNivel ≠ "" ∨ s.ccssNivel ≠ "")) ∧
    (s.programaNivel = "NO" ↔
      ¬(s.comNivel ≠ "" ∨ s.habNivel ≠ "" ∨ s.matNivel ≠ "" ∨
        s.ctaNivel ≠ "" ∨ s.ccssNivel ≠ "")) ∧
    NIVEL_THRESHOLD = 30 / 100 := by
  intro s area
  simp only [s, area, mkResumenRow]
  split_ifs <;> simp_all [NIVEL_THRESHOLD]

/-- C2: With the default criteria (`CRITERIA_BY_AREA`), each subject
score column of a RESUMEN record equals the area's criterion weight for
that subject times the subject's percentage score carried over from the
RESULTADOS row; TOTAL is the sum of the four weighted scores and %_TOTAL
is TOTAL divided by 100. -/
theorem resumen_weighted_scores (nivelBase : ℚ)
    (nivelByArea : String → String → Option ℚ) (row : ResultsRow) :
    let s := mkResumenRow CRITERIA_BY_AREA nivelBase nivelByArea row
    let area := (row.area.toUpper).trim
    s.pctCom = row.pctCom ∧ s.pctHab = row.pctHab ∧
    s.pctMat = row.pctMat ∧ s.pctCta = row.pctCta ∧
    s.com = CRITERIA_BY_AREA area "COMUNICACIÓN" * row.pctCom ∧
    s.hab = CRITERIA_BY_AREA area "HABILIDADES COMUNICATIVAS" * row.pctHab ∧
    s.mat = CRITERIA_BY_AREA area "MATEMÁTICA" * row.pctMat ∧
    s.cta = CRITERIA_BY_AREA area "CTA/CCSS" * row.pctCta ∧
    s.total = s.com + s.hab + s.mat + s.cta ∧
    s.pctTotal = s.total / 100 := by
  intro s area
  simp [s, area, mkResumenRow]

/-- The attempt loop distributes over an all-successful prefix. -/
theorem buildRowsUntilError_ok_append {ε ρ : Type} (rows : List ρ)
    (l : List (Except ε ρ)) :
    buildRowsUntilError (rows.map .ok ++ l) = rows ++ buildRowsUntilError l := by
  induction rows with
  | nil => rfl
  | cons a t ih => simp [buildRowsUntilError, ih]

/-- C6: `_process_user_quiz` never propagates an exception: a failed
attempt fetch yields the empty row list; when the per-attempt loop fails at
some attempt, exactly the rows accumulated before the failure are returned
(all of them when nothing fails); and in the accumulation over all
(quiz, user) pairs each pair contributes independently, so one pair's
failure leaves every other pair's rows unchanged. -/
theorem process_user_quiz_catch_and_continue {ε ρ : Type} :
    (∀ e : ε, processUserQuiz (ε := ε) (ρ := ρ) (.error e) = []) ∧
    (∀ (rows : List ρ) (e : ε) (rest : List (Except ε ρ)),
      processUserQuiz (.ok (rows.map .ok ++ .error e :: rest)) = rows) ∧
    (∀ rows : List ρ, processUserQuiz (ε := ε) (.ok (rows.map .ok)) = rows) ∧
    (∀ (ps₁ ps₂ : List (Except ε (List (Except ε ρ)))) (p : Except ε (List (Except ε ρ))),
      processPairs (ps₁ ++ p :: ps₂) =
        processPairs ps₁ ++ processUserQuiz p ++ processPairs ps₂) := by
  refine ⟨fun e => rfl, fun rows e rest => ?_, fun rows => ?_, fun ps₁ ps₂ p => ?_⟩
  · simp [processUserQuiz, buildRowsUntilError_ok_append, buildRowsUntilError]
  · have h := buildRowsUntilError_ok_append (ε := ε) rows []
    simpa [processUserQuiz, buildRowsUntilError] using h
  · simp [processPairs]

/-- C5: `build_row_from_review` buckets into exactly the 100 fixed
question columns "P. 1 /0.2" … "P. 100 /0.2"; a reviewed question whose
slot is missing, non-integer (both modelled by `slot = none`) or outside
1–100 leaves the slot vector unchanged; PREGUNTAS RESPONDIDAS and
PREGUNTAS NO RESPONDIDAS always sum to 100, and the two percentage columns
equal those counts divided by 100. -/
theorem build_row_question_slots (user : MoodleUser) (area : String)
    (attempt : Attempt) (review : Review) :
    let row := build_row_from_review user area attempt review
    (row.qcols.map Prod.fst = (r 1 100).map pKey) ∧
    row.qcols.length = 100 ∧
    (∀ (l₁ l₂ : List ReviewQuestion) (q : ReviewQuestion),
      (∀ s : Int, q.slot = some s → ¬(1 ≤ s ∧ s ≤ 100)) →
      buildQVals (l₁ ++ q :: l₂) = buildQVals (l₁ ++ l₂)) ∧
    row.respondidas + row.noRespondidas = 100 ∧
    row.pctResp = (row.respondidas : ℚ) / 100 ∧
    row.pctNoResp = (row.noRespondidas : ℚ) / 100 := by
  intro row
  have hlen : ((r 1 100).map fun i => buildQVals review.questions i).length = 100 := by
    simp [r]
  have hresp : count_responded ((r 1 100).map fun i => buildQVals review.questions i) ≤ 100 := by
    have := List.countP_le_length (l := (r 1 100).map fun i => buildQVals review.questions i)
      (p := fun v =>
        match v with
        | none => false
        | some x => decide (|x - 2 / 10| < 1 / 1000000000 ∨ |x| < 1 / 1000000000))
    rw [hlen] at this
    exact this
  refine ⟨?_, ?_, ?_, ?_, rfl, rfl⟩
  · simp [row, build_row_from_review, List.map_map, Function.comp_def]
  · simp [row, build_row_from_review, r]
  · intro l₁ l₂ q hq
    have hstep : ∀ acc : Nat → Option ℚ, updSlot acc q = acc := by
      intro acc
      unfold updSlot
      cases hslot : q.slot with
      | none => rfl
      | some s =>
        have := hq s hslot
        simp [this]
    simp [buildQVals, List.foldl_append, hstep]
  · show count_responded _ + (100 - count_responded _) = 100
    omega

/-- Witness for C5: the bad-slot hypothesis discharged at a concrete
out-of-range question, the count identity at concrete sample data. -/
theorem build_row_question_slots_witness :
    ((build_row_from_review sampleUser "A" sampleAttempt sampleReview).respondidas
      + (build_row_from_review sampleUser "A" sampleAttempt sampleReview).noRespondidas = 100) ∧
    buildQVals ([] ++ badSlotQuestion :: []) = buildQVals ([] ++ []) :=
  ⟨(build_row_question_slots sampleUser "A" sampleAttempt sampleReview).2.2.2.1,
   (build_row_question_slots sampleUser "A" sampleAttempt sampleReview).2.2.1 [] [] badSlotQuestion
     (by intro s hs; injection hs with h; subst h; decide)⟩

/-- C7: `write_excel_all_in_one` is total: on the empty row list it
returns the error "No hay filas para exportar.", and on every non-empty
finite row list it returns a workbook whose RESULTADOS sheet is a
permutation of the input rows and whose RESUMEN sheet is a permutation of
the input rows each mapped through the single per-row summary computation
— each input row is visited exactly once and yields exactly one RESUMEN
record (the summary loop is a linear pass; the embedding is structurally
recursive, so it terminates on every finite list). -/
theorem write_excel_total_linear_pass (rows : List ResultsRow)
    (c : Option (String → String → ℚ)) (b : Option ℚ)
    (a : Option (String → String → Option ℚ)) :
    (rows = [] → write_excel_all_in_one rows c b a = .error "No hay filas para exportar.") ∧
    (rows ≠ [] → ∃ wb : Workbook,
      write_excel_all_in_one rows c b a = .ok wb ∧
      wb.resultados.Perm rows ∧
      wb.resumen.Perm (rows.map (mkResumenRow (c.getD CRITERIA_BY_AREA)
        (b.getD NIVEL_THRESHOLD) (a.getD fun _ _ => none))) ∧
      wb.resumen.length = rows.length) := by
  constructor
  · intro h
    subst h
    rfl
  · intro h
    have hne : rows.isEmpty = false := by
      cases rows with
      | nil => exact absurd rfl h
      | cons x t => rfl
    refine ⟨⟨rows.mergeSort resultsKeyLe,
        ((rows.mergeSort resultsKeyLe).map (mkResumenRow (c.getD CRITERIA_BY_AREA)
          (b.getD NIVEL_THRESHOLD) (a.getD fun _ _ => none))).mergeSort resumenKeyLe⟩,
      ?_, ?_, ?_, ?_⟩
    · unfold write_excel_all_in_one
      rw [hne]
      rfl
    · exact List.mergeSort_perm rows resultsKeyLe
    · exact (List.mergeSort_perm _ resumenKeyLe).trans
        ((List.mergeSort_perm rows resultsKeyLe).map _)
    · simp

/-- Witness for C7 at a concrete non-empty input. -/
theorem write_excel_total_linear_pass_witness :
    ∃ wb : Workbook,
      write_excel_all_in_one [sampleRow] none none none = .ok wb ∧
      wb.resultados.Perm [sampleRow] ∧
      wb.resumen.Perm ([sampleRow].map (mkResumenRow ((none : Option (String → String → ℚ)).getD CRITERIA_BY_AREA)
        ((none : Option ℚ).getD NIVEL_THRESHOLD)
        ((none : Option (String → String → Option ℚ)).getD fun _ _ => none))) ∧
      wb.resumen.length = [sampleRow].length :=
  (write_excel_total_linear_pass [sampleRow] none none none).2 (by simp)

/-- C3, amended: The RESUMEN sheet has exactly one row per input row
(that is, per quiz attempt), not one per distinct student: on a non-empty
input the RESUMEN length equals the input length. -/
theorem resumen_one_record_per_input_row (rows : List ResultsRow)
    (c : Option (String → String → ℚ)) (b : Option ℚ)
    (a : Option (String → String → Option ℚ)) :
    (write_excel_all_in_one rows c b a).map (fun wb => wb.resumen.length) =
      if rows.isEmpty then .error "No hay filas para exportar." else .ok rows.length := by
  unfold write_excel_all_in_one
  cases h : rows.isEmpty with
  | true => rfl
  | false => simp [Except.map]

/-- C3, counterexample: Two attempts of the same student (same DNI)
produce two RESUMEN rows, while the number of distinct students is one: the
RESUMEN sheet is not aggregated per student. -/
theorem resumen_not_aggregated_counterexample :
    (write_excel_all_in_one [sampleRow, sampleRow] none none none).map
        (fun wb => wb.resumen.length) = .ok 2 ∧
    ([sampleRow, sampleRow].map (fun row => row.dni)).dedup.length = 1 := by
  constructor
  · unfold write_excel_all_in_one
    simp [Except.map]
  · rfl

/-- The lexicographic key order is transitive. -/
theorem lexLe_trans {k₁ k₂ k₃ : String × String} (h₁ : lexLe k₁ k₂) (h₂ : lexLe k₂ k₃) :
    lexLe k₁ k₃ := by
  rcases h₁ with h₁ | ⟨e₁, d₁⟩
  · rcases h₂ with h₂ | ⟨e₂, d₂⟩
    · exact .inl (h₁.trans h₂)
    · exact .inl (e₂ ▸ h₁)
  · rcases h₂ with h₂ | ⟨e₂, d₂⟩
    · exact .inl (e₁ ▸ h₂)
    · exact .inr ⟨e₁.trans e₂, d₁.trans d₂⟩

/-- The lexicographic key order is total. -/
theorem lexLe_total (k₁ k₂ : String × String) : lexLe k₁ k₂ ∨ lexLe k₂ k₁ := by
  rcases lt_trichotomy k₁.1 k₂.1 with h | h | h
  · exact .inl (.inl h)
  · rcases le_total k₁.2 k₂.2 with h₂ | h₂
    · exact .inl (.inr ⟨h, h₂⟩)
    · exact .inr (.inr ⟨h.symm, h₂⟩)
  · exact .inr (.inl h)

/-- The comparison `resultsKeyLe` is transitive (Boolean form). -/
theorem resultsKeyLe_trans : ∀ a b c : ResultsRow,
    resultsKeyLe a b → resultsKeyLe b c → resultsKeyLe a c := by
  intro a b c h₁ h₂
  simp only [resultsKeyLe, decide_eq_true_eq] at h₁ h₂ ⊢
  exact lexLe_trans h₁ h₂

/-- The comparison `resultsKeyLe` is total (Boolean form). -/
theorem resultsKeyLe_total : ∀ a b : ResultsRow, resultsKeyLe a b || resultsKeyLe b a := by
  intro a b
  simp only [resultsKeyLe, Bool.or_eq_true, decide_eq_true_eq]
  exact lexLe_total _ _

/-- The comparison `resumenKeyLe` is transitive (Boolean form). -/
theorem resumenKeyLe_trans : ∀ a b c : ResumenRow,
    resumenKeyLe a b → resumenKeyLe b c → resumenKeyLe a c := by
  intro a b c h₁ h₂
  simp only [resumenKeyLe, decide_eq_true_eq] at h₁ h₂ ⊢
  exact lexLe_trans h₁ h₂

/-- The comparison `resumenKeyLe` is total (Boolean form). -/
theorem resumenKeyLe_total : ∀ a b : ResumenRow, resumenKeyLe a b || resumenKeyLe b a := by
  intro a b
  simp only [resumenKeyLe, Bool.or_eq_true, decide_eq_true_eq]
  exact lexLe_total _ _

/-- Stability of `mergeSort` phrased on filters: the sublist of elements
satisfying a predicate on which the comparison is reflexive-in-both-ways is
untouched by the sort. -/
theorem mergeSort_filter_eq {α : Type} {le : α → α → Bool}
    (trans : ∀ a b c, le a b → le b c → le a c)
    (total : ∀ a b, le a b || le b a)
    (l : List α) (p : α → Bool)
    (hp : ∀ a b, p a = true → p b = true → le a b = true) :
    (l.mergeSort le).filter p = l.filter p := by
  have hc : (l.filter p).Pairwise fun a b => le a b = true := by
    apply List.pairwise_of_forall_mem_list
    intro a ha b hb
    exact hp a b (List.of_mem_filter ha) (List.of_mem_filter hb)
  have hsub : List.Sublist (l.filter p) (l.mergeSort le) :=
    List.sublist_mergeSort trans total hc (List.filter_sublist l)
  have hid : (l.filter p).filter p = l.filter p :=
    List.filter_eq_self.mpr fun a ha => List.of_mem_filter ha
  have hsub2 : List.Sublist (l.filter p) ((l.mergeSort le).filter p) := by
    have := hsub.filter p
    rwa [hid] at this
  have hlen : ((l.mergeSort le).filter p).length = (l.filter p).length :=
    ((List.mergeSort_perm l le).filter p).length_eq
  exact (hsub2.eq_of_length hlen.symm).symm

/-- The RESUMEN record keeps the source row's sort key. -/
theorem resumenKey_mkResumenRow (criteria : String → String → ℚ) (nivelBase : ℚ)
    (nivelByArea : String → String → Option ℚ) (row : ResultsRow) :
    resumenKey (mkResumenRow criteria nivelBase nivelByArea row) = resultsKey row := rfl

/-- C8: In the workbook produced by `write_excel_all_in_one`, the
RESULTADOS sheet is sorted non-decreasingly by (Programa Académico, Numero
de DNI) and the RESUMEN sheet by (Programa Académico, DNI), both in the
lexicographic order; and both sorts are stable: for every key, the rows of
that key appear in the sheet exactly as they appear in the input (for
RESUMEN, in the input rows mapped through the per-row summary). -/
theorem workbook_sorted_and_stable (rows : List ResultsRow)
    (c : Option (String → String → ℚ)) (b : Option ℚ)
    (a : Option (String → String → Option ℚ)) (wb : Workbook)
    (h : write_excel_all_in_one rows c b a = .ok wb) :
    wb.resultados.Pairwise (fun r₁ r₂ => lexLe (resultsKey r₁) (resultsKey r₂)) ∧
    wb.resumen.Pairwise (fun s₁ s₂ => lexLe (resumenKey s₁) (resumenKey s₂)) ∧
    (∀ k : String × String,
      wb.resultados.filter (fun row => decide (resultsKey row = k)) =
        rows.filter (fun row => decide (resultsKey row = k))) ∧
    (∀ k : String × String,
      wb.resumen.filter (fun s => decide (resumenKey s = k)) =
        (rows.map (mkResumenRow (c.getD CRITERIA_BY_AREA) (b.getD NIVEL_THRESHOLD)
          (a.getD fun _ _ => none))).filter (fun s => decide (resumenKey s = k))) := by
  unfold write_excel_all_in_one at h
  by_cases hrows : rows.isEmpty
  · rw [if_pos hrows] at h
    exact absurd h (by simp)
  · rw [if_neg hrows] at h
    injection h with h
    subst h
    set mk := mkResumenRow (c.getD CRITERIA_BY_AREA) (b.getD NIVEL_THRESHOLD)
      (a.getD fun _ _ => none) with hmk
    refine ⟨?_, ?_, ?_, ?_⟩
    · exact (List.sorted_mergeSort resultsKeyLe_trans resultsKeyLe_total rows).imp
        fun hab => by simpa [resultsKeyLe, decide_eq_true_eq] using hab
    · exact (List.sorted_mergeSort resumenKeyLe_trans resumenKeyLe_total _).imp
        fun hab => by simpa [resumenKeyLe, decide_eq_true_eq] using hab
    · intro k
      apply mergeSort_filter_eq resultsKeyLe_trans resultsKeyLe_total
      intro x y hx hy
      simp only [decide_eq_true_eq] at hx hy
      simp only [resultsKeyLe, hx, hy, decide_eq_true_eq]
      exact .inr ⟨rfl, le_refl _⟩
    · intro k
      have hstable2 : (((rows.mergeSort resultsKeyLe).map mk).mergeSort resumenKeyLe).filter
          (fun s => decide (resumenKey s = k)) =
          ((rows.mergeSort resultsKeyLe).map mk).filter (fun s => decide (resumenKey s = k)) := by
        apply mergeSort_filter_eq resumenKeyLe_trans resumenKeyLe_total
        intro x y hx hy
        simp only [decide_eq_true_eq] at hx hy
        simp only [resumenKeyLe, hx, hy, decide_eq_true_eq]
        exact .inr ⟨rfl, le_refl _⟩
      have hstable1 : (rows.mergeSort resultsKeyLe).filter
          (fun row => decide (resultsKey row = k)) =
          rows.filter (fun row => decide (resultsKey row = k)) := by
        apply mergeSort_filter_eq resultsKeyLe_trans resultsKeyLe_total
        intro x y hx hy
        simp only [decide_eq_true_eq] at hx hy
        simp only [resultsKeyLe, hx, hy, decide_eq_true_eq]
        exact .inr ⟨rfl, le_refl _⟩
      have hcomm : ∀ l : List ResultsRow,
          (l.map mk).filter (fun s => decide (resumenKey s = k)) =
            (l.filter (fun row => decide (resultsKey row = k))).map mk := by
        intro l
        rw [List.filter_map]
        congr 1
      calc (((rows.mergeSort resultsKeyLe).map mk).mergeSort resumenKeyLe).filter
            (fun s => decide (resumenKey s = k))
          = ((rows.mergeSort resultsKeyLe).map mk).filter
            (fun s => decide (resumenKey s = k)) := hstable2
        _ = ((rows.mergeSort resultsKeyLe).filter
            (fun row => decide (resultsKey row = k))).map mk := hcomm _
        _ = (rows.filter (fun row => decide (resultsKey row = k))).map mk := by rw [hstable1]
        _ = (rows.map mk).filter (fun s => decide (resumenKey s = k)) := (hcomm rows).symm

/-- Witness for C8 at the concrete one-row input and a concrete key. -/
theorem workbook_sorted_and_stable_witness :
    sampleWb.resultados.Pairwise (fun r₁ r₂ => lexLe (resultsKey r₁) (resultsKey r₂)) ∧
    sampleWb.resumen.filter (fun s => decide (resumenKey s = ("ENFERMERIA", "07489547"))) =
      ([sampleRow].map (mkResumenRow ((none : Option (String → String → ℚ)).getD CRITERIA_BY_AREA)
        ((none : Option ℚ).getD NIVEL_THRESHOLD)
        ((none : Option (String → String → Option ℚ)).getD fun _ _ => none))).filter
        (fun s => decide (resumenKey s = ("ENFERMERIA", "07489547"))) := by
  have h := workbook_sorted_and_stable [sampleRow] none none none sampleWb (by
    unfold write_excel_all_in_one
    simp [sampleWb])
  exact ⟨h.1, h.2.2.2 ("ENFERMERIA", "07489547")⟩

/-- The count `count_correct` is additive over list append. -/
theorem count_correct_append (v₁ v₂ : List (Option ℚ)) :
    count_correct (v₁ ++ v₂) = count_correct v₁ + count_correct v₂ := by
  simp [count_correct, List.countP_append]

/-- The in-range filter of `valsOf` is the identity on ranges inside 1..100. -/
theorem filter_inRange_eq_self (a b : Nat) (h₁ : 1 ≤ a) (h₂ : b ≤ 100) :
    (r a b).filter (fun i => decide (1 ≤ i ∧ i ≤ 100)) = r a b := by
  apply List.filter_eq_self.mpr
  intro x hx
  unfold r at hx
  rw [List.mem_range'] at hx
  obtain ⟨i, hi, rfl⟩ := hx
  simp only [decide_eq_true_eq]
  omega

/-- The selection `valsOf` distributes over appended ranges. -/
theorem valsOf_append (q : Nat → Option ℚ) (l₁ l₂ : List Nat) :
    valsOf q (l₁ ++ l₂) = valsOf q l₁ ++ valsOf q l₂ := by
  simp [valsOf, List.filter_append]

/-- The selection `valsOf` over a range inside 1..100 is just the mapped slot values. -/
theorem valsOf_r (q : Nat → Option ℚ) (a b : Nat) (h₁ : 1 ≤ a) (h₂ : b ≤ 100) :
    valsOf q (r a b) = (r a b).map q := by
  unfold valsOf
  rw [filter_inRange_eq_self a b h₁ h₂]

/-- With exact arithmetic, a subject's points are 0.2 times its correct
count: `pct(correct, n) * n * 0.2 = 0.2 * correct` when `n ≠ 0`. -/
theorem ptsOf_eq_count (area subject : String) (qs : List Nat) (q : Nat → Option ℚ)
    (hlk : (areaRanges area).lookup subject = some qs) (hne : qs.length ≠ 0) :
    ptsOf area subject q = 2 / 10 * (count_correct (valsOf q qs) : ℚ) := by
  unfold ptsOf pct
  rw [hlk]
  simp only [if_neg hne]
  have hq : (qs.length : ℚ) ≠ 0 := by exact_mod_cast hne
  field_simp
  ring

/-- C9: For a row built for an area in {A, B, C}: `to_02` maps every
mark to `None`, `0.0` or `0.2`; each subject's points column equals 0.2
times the number of correct answers in that subject's range; and, with
exact arithmetic, PUNTAJE equals 0.2 times the number of correct answers
over all 100 slots, because the subject ranges partition the slots. -/
theorem puntaje_partition (area : String)
    (h : area = "A" ∨ area = "B" ∨ area = "C")
    (user : MoodleUser) (attempt : Attempt) (review : Review) :
    let row := build_row_from_review user area attempt review
    let q := buildQVals review.questions
    (∀ v : Option ℚ, to_02 v = none ∨ to_02 v = some 0 ∨ to_02 v = some (2 / 10)) ∧
    row.pCom = 2 / 10 * (count_correct (valsOf q (subjectRange area "COMUNICACIÓN")) : ℚ) ∧
    row.pHab = 2 / 10 *
      (count_correct (valsOf q (subjectRange area "HABILIDADES COMUNICATIVAS")) : ℚ) ∧
    row.pMat = 2 / 10 * (count_correct (valsOf q (subjectRange area "MATEMÁTICA")) : ℚ) ∧
    row.pCta = 2 / 10 * (count_correct (valsOf q (subjectRange area "CTA/CCSS")) : ℚ) ∧
    row.puntaje = 2 / 10 * (count_correct ((r 1 100).map q) : ℚ) := by
  intro row qv
  have hto : ∀ v : Option ℚ, to_02 v = none ∨ to_02 v = some 0 ∨ to_02 v = some (2 / 10) := by
    intro v
    cases v with
    | none => exact .inl rfl
    | some x =>
      simp only [to_02]
      split_ifs <;> simp
  rcases h with rfl | rfl | rfl
  · have hcom := ptsOf_eq_count "A" "COMUNICACIÓN" (r 1 21 ++ r 97 100) qv rfl (by decide)
    have hhab := ptsOf_eq_count "A" "HABILIDADES COMUNICATIVAS" (r 72 81) qv rfl (by decide)
    have hmat := ptsOf_eq_count "A" "MATEMÁTICA" (r 22 71) qv rfl (by decide)
    have hcta := ptsOf_eq_count "A" "CTA/CCSS" (r 82 96) qv rfl (by decide)
    refine ⟨hto, hcom, hhab, hmat, hcta, ?_⟩
    show ptsOf "A" "COMUNICACIÓN" qv + ptsOf "A" "HABILIDADES COMUNICATIVAS" qv
      + ptsOf "A" "MATEMÁTICA" qv + ptsOf "A" "CTA/CCSS" qv = _
    rw [hcom, hhab, hmat, hcta]
    have hsplit : r 1 100 = r 1 21 ++ r 22 71 ++ r 72 81 ++ r 82 96 ++ r 97 100 := by decide
    rw [hsplit, valsOf_append qv, valsOf_r qv 1 21 (by decide) (by decide),
      valsOf_r qv 97 100 (by decide) (by decide), valsOf_r qv 72 81 (by decide) (by decide),
      valsOf_r qv 22 71 (by decide) (by decide), valsOf_r qv 82 96 (by decide) (by decide)]
    simp only [List.map_append, count_correct_append]
    push_cast
    ring
  · have hcom := ptsOf_eq_count "B" "COMUNICACIÓN" (r 1 21 ++ r 97 100) qv rfl (by decide)
    have hhab := ptsOf_eq_count "B" "HABILIDADES COMUNICATIVAS" (r 52 61) qv rfl (by decide)
    have hmat := ptsOf_eq_count "B" "MATEMÁTICA" (r 22 51) qv rfl (by decide)
    have hcta := ptsOf_eq_count "B" "CTA/CCSS" (r 62 96) qv rfl (by decide)
    refine ⟨hto, hcom, hhab, hmat, hcta, ?_⟩
    show ptsOf "B" "COMUNICACIÓN" qv + ptsOf "B" "HABILIDADES COMUNICATIVAS" qv
      + ptsOf "B" "MATEMÁTICA" qv + ptsOf "B" "CTA/CCSS" qv = _
    rw [hcom, hhab, hmat, hcta]
    have hsplit : r 1 100 = r 1 21 ++ r 22 51 ++ r 52 61 ++ r 62 96 ++ r 97 100 := by decide
    rw [hsplit, valsOf_append qv, valsOf_r qv 1 21 (by decide) (by decide),
      valsOf_r qv 97 100 (by decide) (by decide), valsOf_r qv 52 61 (by decide) (by decide),
      valsOf_r qv 22 51 (by decide) (by decide), valsOf_r qv 62 96 (by decide) (by decide)]
    simp only [List.map_append, count_correct_append]
    push_cast
    ring
  · have hcom := ptsOf_eq_count "C" "COMUNICACIÓN" (r 1 31 ++ r 97 100) qv rfl (by decide)
    have hhab := ptsOf_eq_count "C" "HABILIDADES COMUNICATIVAS" (r 62 71) qv rfl (by decide)
    have hmat := ptsOf_eq_count "C" "MATEMÁTICA" (r 32 61) qv rfl (by decide)
    have hcta := ptsOf_eq_count "C" "CTA/CCSS" (r 72 96) qv rfl (by decide)
    refine ⟨hto, hcom, hhab, hmat, hcta, ?_⟩
    show ptsOf "C" "COMUNICACIÓN" qv + ptsOf "C" "HABILIDADES COMUNICATIVAS" qv
      + ptsOf "C" "MATEMÁTICA" qv + ptsOf "C" "CTA/CCSS" qv = _
    rw [hcom, hhab, hmat, hcta]
    have hsplit : r 1 100 = r 1 31 ++ r 32 61 ++ r 62 71 ++ r 72 96 ++ r 97 100 := by decide
    rw [hsplit, valsOf_append qv, valsOf_r qv 1 31 (by decide) (by decide),
      valsOf_r qv 97 100 (by decide) (by decide), valsOf_r qv 62 71 (by decide) (by decide),
      valsOf_r qv 32 61 (by decide) (by decide), valsOf_r qv 72 96 (by decide) (by decide)]
    simp only [List.map_append, count_correct_append]
    push_cast
    ring

/-- Witness for C9 at area "A" and the concrete sample review. -/
theorem puntaje_partition_witness :
    (let row := build_row_from_review sampleUser "A" sampleAttempt sampleReview
    let q := buildQVals sampleReview.questions
    (∀ v : Option ℚ, to_02 v = none ∨ to_02 v = some 0 ∨ to_02 v = some (2 / 10)) ∧
    row.pCom = 2 / 10 * (count_correct (valsOf q (subjectRange "A" "COMUNICACIÓN")) : ℚ) ∧
    row.pHab = 2 / 10 *
      (count_correct (valsOf q (subjectRange "A" "HABILIDADES COMUNICATIVAS")) : ℚ) ∧
    row.pMat = 2 / 10 * (count_correct (valsOf q (subjectRange "A" "MATEMÁTICA")) : ℚ) ∧
    row.pCta = 2 / 10 * (count_correct (valsOf q (subjectRange "A" "CTA/CCSS")) : ℚ) ∧
    row.puntaje = 2 / 10 * (count_correct ((r 1 100).map q) : ℚ)) :=
  puntaje_partition "A" (.inl rfl) sampleUser sampleAttempt sampleReview

/-- A digit character is not stripped as whitespace. -/
theorem isDigit_not_pyIsSpace {c : Char} (h : c.isDigit = true) : pyIsSpace c = false := by
  simp only [pyIsSpace, decide_eq_false_iff_not]
  rintro (rfl | rfl | rfl | rfl | rfl | rfl) <;> exact absurd h (by decide)

/-- The function `List.dropWhile` keeps a list none of whose elements satisfy the predicate. -/
theorem dropWhile_eq_self_of_not {α : Type} (p : α → Bool) (l : List α)
    (h : ∀ c ∈ l, p c = false) : l.dropWhile p = l := by
  cases l with
  | nil => rfl
  | cons c t =>
    rw [List.dropWhile_cons]
    simp [h c (by simp)]

/-- Stripping is the identity on whitespace-free strings. -/
theorem pyStrip_eq_self (l : List Char) (h : ∀ c ∈ l, pyIsSpace c = false) :
    pyStrip l = l := by
  unfold pyStrip
  rw [dropWhile_eq_self_of_not _ _ h, dropWhile_eq_self_of_not, List.reverse_reverse]
  intro c hc
  exact h c (List.mem_reverse.mp hc)

/-- The padding `zfill` on a digit-headed string pads with zeros on the left. -/
theorem zfill_of_digit_head (c : Char) (rest : List Char) (h : c.isDigit = true) :
    zfill (c :: rest) 8 = List.replicate (8 - (c :: rest).length) '0' ++ c :: rest := by
  simp only [zfill]
  rw [if_neg]
  rintro (rfl | rfl) <;> exact absurd h (by decide)

/-- The padding `zfill` to width 8 is the identity on digit strings of length ≥ 8. -/
theorem zfill_eq_self_of_long (d : List Char) (hd : ∀ c ∈ d, c.isDigit = true)
    (hlen : 8 ≤ d.length) : zfill d 8 = d := by
  cases d with
  | nil => simp at hlen
  | cons c rest =>
    rw [zfill_of_digit_head c rest (hd c (by simp))]
    rw [Nat.sub_eq_zero_of_le hlen]
    rfl

/-- The `zfill(8)` of a non-empty digit string is all digits with length ≥ 8. -/
theorem zfill_shape (d : List Char) (hd : ∀ c ∈ d, c.isDigit = true) (hne : d ≠ []) :
    (∀ c ∈ zfill d 8, c.isDigit = true) ∧ 8 ≤ (zfill d 8).length := by
  cases d with
  | nil => exact absurd rfl hne
  | cons c rest =>
    rw [zfill_of_digit_head c rest (hd c (by simp))]
    constructor
    · intro x hx
      rcases List.mem_append.mp hx with hx | hx
      · rw [List.eq_of_mem_replicate hx]
        decide
      · exact hd x hx
    · rw [List.length_append, List.length_replicate]
      omega

/-- Every character extracted by the shared prelude is a digit. -/
theorem preDigits_digits (l : List Char) : ∀ c ∈ preDigits l, c.isDigit = true := by
  intro c hc
  unfold preDigits at hc
  exact List.of_mem_filter hc

/-- The normalizer `norm_dni` either returns the empty string or the `zfill(8)` of the
non-empty digit string it extracted. -/
theorem norm_dni_is_zfill (l : List Char) :
    norm_dni l = [] ∨
    ∃ d : List Char, (∀ c ∈ d, c.isDigit = true) ∧ d ≠ [] ∧ norm_dni l = zfill d 8 := by
  unfold norm_dni
  by_cases hde : preDigits l = []
  · left
    simp [hde]
  · right
    refine ⟨preDigits l, preDigits_digits l, hde, ?_⟩
    simp [hde]

/-- Both normalizers are the identity on non-empty digit strings of length
at least 8. -/
theorem norm_canonical (d : List Char) (hd : ∀ c ∈ d, c.isDigit = true)
    (hne : d ≠ []) (hlen : 8 ≤ d.length) :
    norm_dni d = d ∧ norm_dni_value d = d := by
  have hnospace : ∀ c ∈ d, pyIsSpace c = false := fun c hc => isDigit_not_pyIsSpace (hd c hc)
  have hstrip : pyStrip d = d := pyStrip_eq_self d hnospace
  have hnosuffix : ¬(['.', '0'] <:+ d) := by
    intro hsuf
    have hmem : '.' ∈ d := hsuf.subset (by simp)
    exact absurd (hd '.' hmem) (by decide)
  have hfilter : d.filter Char.isDigit = d := List.filter_eq_self.mpr hd
  have hpre : preDigits d = d := by
    unfold preDigits
    rw [hstrip, if_neg hnosuffix, hfilter]
  constructor
  · unfold norm_dni
    rw [hpre, if_neg hne]
    exact zfill_eq_self_of_long d hd hlen
  · unfold norm_dni_value
    rw [hpre, if_neg hne, if_neg (by omega)]

/-- C10: The two DNI normalizers compute the same function on every
input; and every non-empty output consists only of digit characters, has
length at least 8, and is a fixed point of both normalizers. -/
theorem dni_normalizers_agree :
    (∀ l : List Char, norm_dni l = norm_dni_value l) ∧
    (∀ l : List Char, norm_dni l ≠ [] →
      (∀ c ∈ norm_dni l, c.isDigit = true) ∧
      8 ≤ (norm_dni l).length ∧
      norm_dni (norm_dni l) = norm_dni l ∧
      norm_dni_value (norm_dni l) = norm_dni l) := by
  have heq : ∀ l : List Char, norm_dni l = norm_dni_value l := by
    intro l
    unfold norm_dni norm_dni_value
    by_cases hde : preDigits l = []
    · simp [hde]
    · simp only [if_neg hde]
      by_cases hlen : (preDigits l).length < 8
      · rw [if_pos hlen]
      · rw [if_neg hlen]
        exact zfill_eq_self_of_long _ (preDigits_digits l) (by omega)
  have hshape : ∀ l : List Char, norm_dni l ≠ [] →
      (∀ c ∈ norm_dni l, c.isDigit = true) ∧ 8 ≤ (norm_dni l).length := by
    intro l h
    rcases norm_dni_is_zfill l with h0 | ⟨d, hdig, hne, hzf⟩
    · exact absurd h0 h
    · rw [hzf]
      exact zfill_shape d hdig hne
  refine ⟨heq, fun l h => ?_⟩
  obtain ⟨hdig, hlen⟩ := hshape l h
  obtain ⟨h1, h2⟩ := norm_canonical (norm_dni l) hdig h hlen
  exact ⟨hdig, hlen, h1, h2⟩

/-- Witness for C10 at a concrete messy input. -/
theorem dni_normalizers_agree_witness :
    norm_dni (" 7489547.0".toList) = norm_dni_value (" 7489547.0".toList) ∧
    ((∀ c ∈ norm_dni (" 7489547.0".toList), c.isDigit = true) ∧
      8 ≤ (norm_dni (" 7489547.0".toList)).length ∧
      norm_dni (norm_dni (" 7489547.0".toList)) = norm_dni (" 7489547.0".toList) ∧
      norm_dni_value (norm_dni (" 7489547.0".toList)) = norm_dni (" 7489547.0".toList)) :=
  ⟨dni_normalizers_agree.1 _, dni_normalizers_agree.2 _ (by decide)⟩

end MoodleAdmision

